import Mathlib

/-!
# Verification of the ncatos OCSP/TSP/HTTP monitor

Shallow embedding of the ncatos monitoring utility (Go) and proofs about it.
Bytes are modelled as `Nat` (values < 256 where it matters), byte strings as
`List Nat`.  Calls into the Go standard library `encoding/asn1` are embedded
concretely where the behaviour is fully determined (DER OCTET STRING
marshalling) and passed as explicit function parameters where the source only
forwards opaque structures to the library (marshalling of whole requests,
unmarshalling of BasicOCSPResponse bodies).
-/

namespace Ncatos

/-! ## DER OCTET STRING codec (embedding of Go `asn1.Marshal` on `[]byte`
and the corresponding `asn1.Unmarshal`) -/

/-- Big-endian base-256 digits of `n` (empty for `n = 0`, no leading zero). -/
def natToBytesBE : Nat → List Nat
  | 0 => []
  | n + 1 => natToBytesBE ((n + 1) / 256) ++ [(n + 1) % 256]
decreasing_by exact Nat.div_lt_self (Nat.succ_pos n) (by norm_num)

/-- Value of a big-endian base-256 digit list. -/
def bytesToNatBE (ds : List Nat) : Nat := ds.foldl (fun acc d => acc * 256 + d) 0

/-- DER definite-form length octets for a content length `n`. -/
def derLenEncode (n : Nat) : List Nat :=
  if n < 128 then [n] else (128 + (natToBytesBE n).length) :: natToBytesBE n

/-- DER encoding of an OCTET STRING with contents `b`
(tag `0x04`, definite length, contents).  This is exactly what Go
`asn1.Marshal` produces for a `[]byte` value. -/
def asn1MarshalOctetString (b : List Nat) : List Nat :=
  4 :: derLenEncode b.length ++ b

/-- Parse DER definite-form length octets; returns the length and the rest. -/
def derLenDecode : List Nat → Option (Nat × List Nat)
  | [] => none
  | l :: rest =>
    if l < 128 then some (l, rest)
    else
      let k := l - 128
      if k = 0 then none
      else if k ≤ rest.length then some (bytesToNatBE (rest.take k), rest.drop k)
      else none

/-- Parse a DER OCTET STRING occupying the whole input, as Go
`asn1.Unmarshal` into a `[]byte` does. -/
def asn1UnmarshalOctetString (l : List Nat) : Option (List Nat) :=
  match l with
  | 4 :: rest =>
    match derLenDecode rest with
    | some (n, contents) => if contents.length = n then some contents else none
    | none => none
  | _ => none

/-! ## OCSP data model (embedding of `ocspAsn.go`)

Object identifiers are component lists, byte strings are `List Nat`,
`asn1.RawValue`/`asn1.RawContent` payloads are the raw byte lists, and
timestamps are integers (their values are never inspected by the code
under verification). -/

/-- Embedding of Go `pkix.Extension`. -/
structure pkixExtension where
  Id : List Nat
  Critical : Bool
  Value : List Nat
  deriving DecidableEq

/-- Embedding of Go `pkix.AlgorithmIdentifier`. -/
structure pkixAlgorithmIdentifier where
  Algorithm : List Nat
  Parameters : List Nat
  deriving DecidableEq

/-- Embedding of `ocspCertID` (RFC 6960 CertID with cached raw encoding). -/
structure ocspCertID where
  Raw : List Nat
  HashAlgorithm : pkixAlgorithmIdentifier
  NameHash : List Nat
  IssuerKeyHash : List Nat
  SerialNumber : Int
  deriving DecidableEq

/-- Embedding of `ocspSingleRequest`. -/
structure ocspSingleRequest where
  ReqCert : ocspCertID
  SingleRequestExtensions : List pkixExtension
  deriving DecidableEq

/-- Embedding of `ocspTBSRequest`. -/
structure ocspTBSRequest where
  Version : Int
  RequestorName : List Nat
  RequestList : List ocspSingleRequest
  RequestExtensions : List pkixExtension
  deriving DecidableEq

/-- Embedding of `ocspRequest`. -/
structure ocspRequest where
  TBSRequest : ocspTBSRequest
  Signature : List Nat
  deriving DecidableEq

/-- Embedding of `ocspResponseBytes`. -/
structure ocspResponseBytes where
  ResponseType : List Nat
  Response : List Nat
  deriving DecidableEq

/-- Embedding of `ocspResponse`. -/
structure ocspResponse where
  ResponseStatus : Int
  ResponseBytes : ocspResponseBytes
  deriving DecidableEq

/-- Embedding of `ocspSingleResponse`. -/
structure ocspSingleResponse where
  CertID : ocspCertID
  CertStatusRaw : List Nat
  ThisUpdate : Int
  NextUpdate : Int
  SingleExtensions : List pkixExtension
  deriving DecidableEq

/-- Embedding of `ocspResponseData`. -/
structure ocspResponseData where
  Version : Int
  RawResponderID : List Nat
  ProducedAt : Int
  Responses : List ocspSingleResponse
  Extensions : List pkixExtension
  deriving DecidableEq

/-- Embedding of `ocspBasicResponse`. -/
structure ocspBasicResponse where
  TBSResponseData : ocspResponseData
  SignatureAlgorithm : pkixAlgorithmIdentifier
  Signature : List Nat
  Certificates : List (List Nat)
  deriving DecidableEq

/-- OID of the OCSP nonce extension (`ocspAsn.go`). -/
def oidOCSPNonceExtension : List Nat := [1, 3, 6, 1, 5, 5, 7, 48, 1, 2]

/-- OID of the OCSP basic response type (`ocspAsn.go`). -/
def oidOCSPBasicResponse : List Nat := [1, 3, 6, 1, 5, 5, 7, 48, 1, 1]

/-! ## OCSP response validation (embedding of `ocspResponseValidate` in `ocsp.go`) -/

/-- The distinct error values `ocspResponseValidate` can return, one
constructor per `return` site in the Go function.  `panicEmptyRequestList`
models the index-out-of-range panic Go would raise at
`request.TBSRequest.RequestList[0]` when the request list is empty. -/
inductive OcspValidateError where
  | invalidResponseStatus (status : Int)
  | invalidResponseType (oid : List Nat)
  | emptyBasicResponse
  | decodeBasicResponseFailed
  | panicEmptyRequestList
  | noStatusInfo
  | nonceMismatch
  | nonceNotFound
  deriving DecidableEq

/-- The `for i := range basicResponse.TBSResponseData.Responses` search loop:
scans the status entries for one whose cached CertID encoding equals the
encoding of the request's first CertID.  Returns `none` when Go would panic
(an entry is inspected while the request list is empty). -/
def ocspFindStatusInfo (requestList : List ocspSingleRequest)
    (responses : List ocspSingleResponse) : Option Bool :=
  match responses with
  | [] => some false
  | r :: rest =>
    match requestList.head? with
    | none => none
    | some sr =>
      if r.CertID.Raw = sr.ReqCert.Raw then some true
      else ocspFindStatusInfo requestList rest

/-- The nonce search loop of `ocspResponseValidate`: the first extension
carrying the nonce OID decides the outcome (mismatching value is an error,
matching value breaks the loop with success); extensions after the first
matching OID are never examined. -/
def ocspNonceCheck (extensions : List pkixExtension) (nonce : List Nat) :
    Option OcspValidateError :=
  match extensions with
  | [] => some .nonceNotFound
  | ext :: rest =>
    if ext.Id = oidOCSPNonceExtension then
      if ext.Value ≠ nonce then some .nonceMismatch else none
    else ocspNonceCheck rest nonce

/-- Embedding of `ocspResponseValidate`.  `decodeBasic` stands for the Go
standard-library call `asn1.Unmarshal` into an `ocspBasicResponse` (external
to this repository); `none` is its failure case.  The function returns
`none` on success and `some e` for the error `e` the Go function returns. -/
def ocspResponseValidate (decodeBasic : List Nat → Option ocspBasicResponse)
    (response : ocspResponse) (request : ocspRequest) (nonce : List Nat) :
    Option OcspValidateError :=
  if response.ResponseStatus ≠ 0 then
    some (.invalidResponseStatus response.ResponseStatus)
  else if response.ResponseBytes.ResponseType ≠ oidOCSPBasicResponse then
    some (.invalidResponseType response.ResponseBytes.ResponseType)
  else if response.ResponseBytes.Response.length = 0 then
    some .emptyBasicResponse
  else
    match decodeBasic response.ResponseBytes.Response with
    | none => some .decodeBasicResponseFailed
    | some basicResponse =>
      match ocspFindStatusInfo request.TBSRequest.RequestList
          basicResponse.TBSResponseData.Responses with
      | none => some .panicEmptyRequestList
      | some false => some .noStatusInfo
      | some true =>
        if nonce.length > 0 then
          ocspNonceCheck basicResponse.TBSResponseData.Extensions nonce
        else none

/-! ## OCSP request encoding (embedding of `ocspEncodeRequest` in `ocsp.go`) -/

/-- The CertID caching step of `ocspEncodeRequest` (`ocsp.go` lines
222–228): if the first request entry's cached raw CertID encoding is
empty, marshal the CertID (via the external `asn1.Marshal`, abstracted as
`marshalCertID`) and store it.  `none` models both a marshalling error
return and the panic Go would raise indexing an empty request list. -/
def ocspCacheCertIDRaw (marshalCertID : ocspCertID → Option (List Nat))
    (request1 : ocspRequest) : Option ocspRequest :=
  match request1.TBSRequest.RequestList.head? with
  | none => none
  | some sr0 =>
    if sr0.ReqCert.Raw.length = 0 then
      match marshalCertID sr0.ReqCert with
      | none => none
      | some raw =>
        some { request1 with TBSRequest := { request1.TBSRequest with
          RequestList := { sr0 with ReqCert := { sr0.ReqCert with Raw := raw } } ::
            request1.TBSRequest.RequestList.tail } }
    else some request1

/-- Embedding of `ocspEncodeRequest`.  `marshalCertID` and `marshalRequest`
stand for the Go standard-library calls `asn1.Marshal` on the CertID and on
the whole request (external to this repository); `randomResult` is the
outcome of `random(nonceSize)` (`none` = generation failed).  The nonce
wrapping `asn1.Marshal(nonce)` on a `[]byte` is embedded concretely as
`asn1MarshalOctetString`.  Returns the encoded request, the returned nonce
and the updated request (Go mutates the request in place); `none` models
both an error return and the panic on an empty request list. -/
def ocspEncodeRequest
    (marshalCertID : ocspCertID → Option (List Nat))
    (marshalRequest : ocspRequest → Option (List Nat))
    (randomResult : Option (List Nat))
    (request : ocspRequest) (nonceSize : Nat) :
    Option (List Nat × List Nat × ocspRequest) :=
  let step1 : Option (List Nat × ocspRequest) :=
    if nonceSize > 0 then
      match randomResult with
      | none => none
      | some rb =>
        let nonce := asn1MarshalOctetString rb
        some (nonce, { request with TBSRequest := { request.TBSRequest with
          RequestExtensions :=
            [{ Id := oidOCSPNonceExtension, Critical := false, Value := nonce }] } })
    else some ([], request)
  match step1 with
  | none => none
  | some (nonce, request1) =>
    match ocspCacheCertIDRaw marshalCertID request1 with
    | none => none
    | some request2 =>
      match marshalRequest request2 with
      | none => none
      | some encoded => some (encoded, nonce, request2)

/-! ## Retry wait (embedding of `waitForTimeout` in `config.go`) -/

/-- Embedding of `waitForTimeout`.  Time is discrete: `ctxErr` says whether
the context is already cancelled on entry, `cancelAt` is the instant at
which the cancellation signal fires during the wait (`none` = never).  The
`select` races the timer (which fires at `timeout`) against the
cancellation signal; whichever resolves first wins.  The result is the
duration actually waited. -/
def waitForTimeout (ctxErr : Bool) (timeout : Nat) (cancelAt : Option Nat) : Nat :=
  if ctxErr ∨ timeout = 0 then 0
  else
    match cancelAt with
    | none => timeout
    | some t => min timeout t

/-! ## Transport body reading (embedding of `postRequest` in `network.go`) -/

/-- The body-reading step of `postRequest` (`network.go`): `maxSize` is the
configured `maxResponseSize` (a Go `int64`), `body` is the full stream the
server sends.  With `maxSize > 0` the code reads through an
`io.LimitedReader` with budget `maxSize` and turns the exhausted budget
(`limitedReader.N == 0` after `io.ReadAll` succeeded) into an error;
otherwise it reads the whole stream.  Returns the bytes stored in
`result.Body` and the error returned alongside them. -/
def postRequestReadBody (maxSize : Int) (body : List Nat) : List Nat × Option String :=
  if maxSize > 0 then
    let limit := maxSize.toNat
    let readBytes := body.take limit
    if readBytes.length = limit then
      (readBytes, some "maximum response body size exceeded")
    else (readBytes, none)
  else (body, none)

/-! ## Monitor retry loop (embedding of `ocspMonitorStart` in `ocsp.go`) -/

/-- Classification of one attempt of the monitor loop body, i.e. of the
joint results of `ocspEncodeRequest`, `postRequest`, `asn1.Unmarshal` and
`ocspResponseValidate` at that attempt.  `createFail` is the case where
`postRequest` comes back with `StatusCode == 0 && SendReceiveTime == 0`
(the HTTP request object could not be constructed); `netFail ctxMatch`
is a non-nil `postRequest` error, with `ctxMatch` recording whether
`ctx.Err() != nil && errors.Is(err, ctx.Err())` held. -/
inductive OcspAttempt where
  | encodeFail
  | createFail
  | netFail (ctxMatch : Bool)
  | httpFail
  | asnFail
  | contentsFail
  | success
  deriving DecidableEq

/-- Observable events of one monitor run: per-attempt request dispatch,
processing-time observation, error-counter increments keyed like the
Prometheus counters, retry-interval waits, success log lines and the final
stop log line. -/
inductive MonitorEvent where
  | attempt (i : Nat)
  | observe
  | incNet
  | incHTTP
  | incASN
  | incContents
  | wait
  | success
  | logStop
  deriving DecidableEq

/-- Terminal errors a monitor can leave in `lastError`: the fatal
`ocspEncodeRequest` failure and the `failed to create OCSP HTTP request`
failure. -/
inductive MonitorError where
  | encodeError
  | createRequestError
  deriving DecidableEq

/-- Environment of one monitor run: the configured retry count
(0 = unbounded), whether the cancellation context is observed cancelled at
the top of iteration `i`, and the classified outcome of attempt `i`. -/
structure MonitorEnv where
  retryCount : Nat
  cancelledAt : Nat → Bool
  attempt : Nat → OcspAttempt

/-- The retry-interval wait guarded by the Go condition
`cfg.RetryCount == 0 || i != cfg.RetryCount-1`. -/
def monitorWaitEvents (env : MonitorEnv) (i : Nat) : List MonitorEvent :=
  if env.retryCount = 0 ∨ i ≠ env.retryCount - 1 then [.wait] else []

/-- Whether one loop iteration breaks out of the loop (and with which
`lastError`) or continues with the next attempt. -/
inductive StepOutcome where
  | brk (lastError : Option MonitorError)
  | cont
  deriving DecidableEq

/-- One iteration body of the `ocspMonitorStart` loop (after the
top-of-loop cancellation check): the emitted events and whether the loop
breaks.  Mirrors the branch structure of `ocsp.go` lines 96–182. -/
def ocspMonitorStep (env : MonitorEnv) (i : Nat) : List MonitorEvent × StepOutcome :=
  match env.attempt i with
  | .encodeFail => ([], .brk (some .encodeError))
  | .createFail => ([.attempt i], .brk (some .createRequestError))
  | .netFail ctxMatch =>
    if ctxMatch then ([.attempt i, .observe], .brk none)
    else ([.attempt i, .observe, .incNet] ++ monitorWaitEvents env i, .cont)
  | .httpFail => ([.attempt i, .observe, .incHTTP] ++ monitorWaitEvents env i, .cont)
  | .asnFail => ([.attempt i, .observe, .incASN] ++ monitorWaitEvents env i, .cont)
  | .contentsFail => ([.attempt i, .observe, .incContents] ++ monitorWaitEvents env i, .cont)
  | .success => ([.attempt i, .observe, .success] ++ monitorWaitEvents env i, .cont)

/-- The main loop of `ocspMonitorStart` from iteration `i` on, allowed at
most `fuel` further iterations.  Returns `none` when `fuel` iterations were
not enough to reach termination (only possible with an unbounded retry
count), otherwise the emitted events and the final `lastError`. -/
def ocspMonitorLoop (env : MonitorEnv) :
    Nat → Nat → Option (List MonitorEvent × Option MonitorError)
  | _, 0 => none
  | i, fuel + 1 =>
    if env.retryCount = 0 ∨ i < env.retryCount then
      if env.cancelledAt i then some ([], none)
      else
        match ocspMonitorStep env i with
        | (evs, .brk e) => some (evs, e)
        | (evs, .cont) =>
          match ocspMonitorLoop env (i + 1) fuel with
          | none => none
          | some (evs2, e) => some (evs ++ evs2, e)
    else some ([], none)

/-- The capacity-1 result channel of a monitor. -/
structure ResultChannel where
  buf : List MonitorError
  closed : Bool
  deriving DecidableEq

/-- A fresh result channel (`make(chan error, 1)`). -/
def newResultChannel : ResultChannel := { buf := [], closed := false }

/-- Non-blocking send (`select` with a `default` arm): delivers exactly
when the channel is open and its capacity-1 buffer has space; returns the
updated channel and whether the value was delivered. -/
def channelTrySend (c : ResultChannel) (e : MonitorError) : ResultChannel × Bool :=
  if ¬ c.closed ∧ c.buf.length < 1 then ({ c with buf := c.buf ++ [e] }, true)
  else (c, false)

/-- Closing the channel. -/
def channelClose (c : ResultChannel) : ResultChannel := { c with closed := true }

/-- The deferred epilogue of the monitor goroutine: try to send a non-nil
`lastError` with a non-blocking send, emit the single stop log event, then
close the channel.  The third component records that every required
delivery succeeded (`true` when no send was needed). -/
def monitorEpilogue (lastError : Option MonitorError) (c : ResultChannel) :
    ResultChannel × List MonitorEvent × Bool :=
  match lastError with
  | some e =>
    match channelTrySend c e with
    | (c1, delivered) => (channelClose c1, [.logStop], delivered)
  | none => (channelClose c, [.logStop], true)

/-- A complete terminated run of the monitor goroutine body: the loop from
iteration 0 followed by the deferred epilogue on a fresh capacity-1
channel. -/
structure MonitorRun where
  events : List MonitorEvent
  lastError : Option MonitorError
  channel : ResultChannel
  sendDelivered : Bool
  deriving DecidableEq

/-- Run the monitor with the given fuel (see `ocspMonitorLoop`). -/
def ocspMonitorRun (env : MonitorEnv) (fuel : Nat) : Option MonitorRun :=
  match ocspMonitorLoop env 0 fuel with
  | none => none
  | some (evs, lastError) =>
    match monitorEpilogue lastError newResultChannel with
    | (c, epiEvs, delivered) =>
      some { events := evs ++ epiEvs, lastError := lastError, channel := c,
             sendDelivered := delivered }

/-- Count the attempt events in a trace. -/
def countAttempts (evs : List MonitorEvent) : Nat :=
  (evs.filter fun e => match e with | .attempt _ => true | _ => false).length

/-- Count the retry-interval waits in a trace. -/
def countWaits (evs : List MonitorEvent) : Nat :=
  (evs.filter fun e => e = .wait).length

/-- Count the stop log events in a trace. -/
def countStops (evs : List MonitorEvent) : Nat :=
  (evs.filter fun e => e = .logStop).length

/-- The trace the monitor emits when attempt `i` fails with a
non-cancellation network error: log/dispatch, processing-time observation,
`net` counter increment, and the retry wait unless this is the last
permitted attempt. -/
def netFailTrace (env : MonitorEnv) (i : Nat) : List MonitorEvent :=
  [.attempt i, .observe, .incNet] ++ monitorWaitEvents env i

/-! ## Orchestrator exit codes (embedding of the `select` loop in `main.go`) -/

/-- One event the orchestrator `select` can wake up on: a value received
from one of the monitor result channels (`none` = channel closed without a
terminal error), an error delivered by the metrics server, or the operator
interrupt signal. -/
inductive MainEvent where
  | ocspResult (e : Option MonitorError)
  | tspResult (e : Option MonitorError)
  | httpResult (e : Option MonitorError)
  | metricsResult
  | osSignal
  deriving DecidableEq

/-- Exit code after one `select` arm of `main` runs (`main.go` lines
160–194), starting from the exit code `cur` (0 initially). -/
def mainHandleEvent (cur : Nat) : MainEvent → Nat
  | .ocspResult e => if e.isSome then 7 else cur
  | .tspResult e => if e.isSome then 8 else cur
  | .httpResult e => if e.isSome then 8 else cur
  | .metricsResult => 9
  | .osSignal => 0

/-- Whether the event makes the orchestrator loop stop immediately (the
`break` condition: cancelled context after an interrupt, or a non-nil
`stopError`); a `none` monitor result only marks that channel as done. -/
def mainStopsAfter : MainEvent → Bool
  | .ocspResult e => e.isSome
  | .tspResult e => e.isSome
  | .httpResult e => e.isSome
  | .metricsResult => true
  | .osSignal => true

/-! ## Concrete fixtures used by witnesses and counterexamples -/

/-- A concrete algorithm identifier. -/
def fixAlg : pkixAlgorithmIdentifier := { Algorithm := [1, 2], Parameters := [5, 0] }

/-- A concrete CertID with a cached raw encoding. -/
def fixCertID : ocspCertID :=
  { Raw := [48, 3, 2, 1, 7], HashAlgorithm := fixAlg, NameHash := [10],
    IssuerKeyHash := [11], SerialNumber := 1 }

/-- A CertID whose cached raw encoding differs from `fixCertID`. -/
def fixOtherCertID : ocspCertID := { fixCertID with Raw := [48, 3, 2, 1, 8] }

/-- The single request entry of the fixture request. -/
def fixSingleRequest : ocspSingleRequest :=
  { ReqCert := fixCertID, SingleRequestExtensions := [] }

/-- The TBS body of the fixture request. -/
def fixTBSRequest : ocspTBSRequest :=
  { Version := 0, RequestorName := [], RequestList := [fixSingleRequest],
    RequestExtensions := [] }

/-- The fixture request template (one CertID in the request list). -/
def fixRequest : ocspRequest :=
  { TBSRequest := fixTBSRequest, Signature := [] }

/-- A status entry keyed by the given CertID. -/
def fixEntry (cid : ocspCertID) : ocspSingleResponse :=
  { CertID := cid, CertStatusRaw := [], ThisUpdate := 0, NextUpdate := 0,
    SingleExtensions := [] }

/-- A basic response with the given status entries and extensions. -/
def fixBasic (entries : List ocspSingleResponse) (exts : List pkixExtension) :
    ocspBasicResponse :=
  { TBSResponseData := { Version := 0, RawResponderID := [], ProducedAt := 0, Responses := entries, Extensions := exts },
    SignatureAlgorithm := fixAlg, Signature := [], Certificates := [] }

/-- The nonce as `ocspEncodeRequest` returns it: the OCTET STRING wrapping
of the raw random bytes `[55, 66]`. -/
def fixNonce : List Nat := [4, 2, 55, 66]

/-- A nonce extension with the given value. -/
def fixNonceExt (v : List Nat) : pkixExtension :=
  { Id := oidOCSPNonceExtension, Critical := false, Value := v }

/-- A concrete stand-in for `asn1.Unmarshal` into `ocspBasicResponse`,
mapping four distinguished bodies to four decoded responses: a valid one, a
CertID-flipped one, a nonce-flipped one, and one with two status entries
matching the request's CertID. -/
def fixDecode : List Nat → Option ocspBasicResponse := fun body =>
  if body = [9] then some (fixBasic [fixEntry fixCertID] [fixNonceExt fixNonce])
  else if body = [8] then some (fixBasic [fixEntry fixOtherCertID] [fixNonceExt fixNonce])
  else if body = [7] then some (fixBasic [fixEntry fixCertID] [fixNonceExt [4, 2, 55, 67]])
  else if body = [6] then some (fixBasic [fixEntry fixCertID, fixEntry fixCertID] [])
  else if body = [5] then
    some (fixBasic [fixEntry fixCertID] [fixNonceExt [4, 2, 55, 67], fixNonceExt fixNonce])
  else none

/-- A response wrapper with successful status, the basic-response type OID
and the given body. -/
def fixResponse (body : List Nat) : ocspResponse :=
  { ResponseStatus := 0,
    ResponseBytes := { ResponseType := oidOCSPBasicResponse, Response := body } }

/-- A monitor environment whose every attempt fails to construct the HTTP
request object (`postRequest` returns with zero status code and zero
send-receive time). -/
def envCreateFail : MonitorEnv :=
  { retryCount := 3, cancelledAt := fun _ => false, attempt := fun _ => .createFail }

/-- A monitor environment with retry count `n` whose every attempt fails
with a non-cancellation network error. -/
def envNetFail (n : Nat) : MonitorEnv :=
  { retryCount := n, cancelledAt := fun _ => false, attempt := fun _ => .netFail false }

/-! # Theorems -/

theorem bytesToNatBE_append_digit (xs : List Nat) (d : Nat) :
    bytesToNatBE (xs ++ [d]) = bytesToNatBE xs * 256 + d := by
  simp [bytesToNatBE, List.foldl_append]

theorem bytesToNatBE_natToBytesBE (n : Nat) : bytesToNatBE (natToBytesBE n) = n := by
  induction n using Nat.strong_induction_on with
  | _ n ih =>
    match n with
    | 0 => simp [natToBytesBE, bytesToNatBE]
    | m + 1 =>
      rw [natToBytesBE, bytesToNatBE_append_digit,
        ih ((m + 1) / 256) (Nat.div_lt_self (Nat.succ_pos m) (by norm_num))]
      rw [Nat.mul_comm]
      exact Nat.div_add_mod (m + 1) 256

theorem natToBytesBE_ne_nil (n : Nat) (h : 0 < n) : natToBytesBE n ≠ [] := by
  match n, h with
  | m + 1, _ =>
    rw [natToBytesBE]
    exact fun hc => by simpa using congrArg List.length hc

theorem derLenDecode_encode (n : Nat) (tail : List Nat) :
    derLenDecode (derLenEncode n ++ tail) = some (n, tail) := by
  by_cases h : n < 128
  · simp [derLenEncode, h, derLenDecode]
  · have hlen : 0 < n := by omega
    have hd : 0 < (natToBytesBE n).length :=
      List.length_pos.mpr (natToBytesBE_ne_nil n hlen)
    have h128 : ¬ (128 + (natToBytesBE n).length < 128) := by omega
    simp [derLenEncode, h, derLenDecode, h128, Nat.add_sub_cancel_left, hd.ne',
      List.take_left, List.drop_left, bytesToNatBE_natToBytesBE, Nat.le_add_right]

/-- Round trip: decoding the DER OCTET STRING encoding of any byte list
recovers exactly that byte list. -/
theorem asn1UnmarshalOctetString_marshal (b : List Nat) :
    asn1UnmarshalOctetString (asn1MarshalOctetString b) = some b := by
  simp [asn1MarshalOctetString, asn1UnmarshalOctetString, derLenDecode_encode]

theorem ocspFindStatusInfo_true_iff {rl : List ocspSingleRequest}
    {sr : ocspSingleRequest} (hrl : rl.head? = some sr)
    (resps : List ocspSingleResponse) :
    ocspFindStatusInfo rl resps = some true ↔
      ∃ r ∈ resps, r.CertID.Raw = sr.ReqCert.Raw := by
  induction resps with
  | nil => simp [ocspFindStatusInfo]
  | cons r rest ih =>
    simp only [ocspFindStatusInfo, hrl]
    by_cases h : r.CertID.Raw = sr.ReqCert.Raw
    · simp [h]
    · simp [h, ih]

theorem ocspFindStatusInfo_false_iff {rl : List ocspSingleRequest}
    {sr : ocspSingleRequest} (hrl : rl.head? = some sr)
    (resps : List ocspSingleResponse) :
    ocspFindStatusInfo rl resps = some false ↔
      ∀ r ∈ resps, r.CertID.Raw ≠ sr.ReqCert.Raw := by
  induction resps with
  | nil => simp [ocspFindStatusInfo]
  | cons r rest ih =>
    simp only [ocspFindStatusInfo, hrl]
    by_cases h : r.CertID.Raw = sr.ReqCert.Raw
    · simp [h]
    · simp [h, ih]

theorem ocspNonceCheck_none_of_match (l : List pkixExtension) (nonce : List Nat)
    (hex : ∃ e ∈ l, e.Id = oidOCSPNonceExtension)
    (hall : ∀ e ∈ l, e.Id = oidOCSPNonceExtension → e.Value = nonce) :
    ocspNonceCheck l nonce = none := by
  induction l with
  | nil => simp at hex
  | cons a rest ih =>
    simp only [ocspNonceCheck]
    by_cases h : a.Id = oidOCSPNonceExtension
    · simp [h, hall a (by simp) h]
    · rcases hex with ⟨e, he, hid⟩
      rcases List.mem_cons.mp he with rfl | hrest
      · exact absurd hid h
      · simp only [h, if_false]
        exact ih ⟨e, hrest, hid⟩ fun e2 he2 hid2 => hall e2 (List.mem_cons_of_mem a he2) hid2

theorem ocspNonceCheck_mismatch_of_all_ne (l : List pkixExtension) (nonce : List Nat)
    (hex : ∃ e ∈ l, e.Id = oidOCSPNonceExtension)
    (hne : ∀ e ∈ l, e.Id = oidOCSPNonceExtension → e.Value ≠ nonce) :
    ocspNonceCheck l nonce = some .nonceMismatch := by
  induction l with
  | nil => simp at hex
  | cons a rest ih =>
    simp only [ocspNonceCheck]
    by_cases h : a.Id = oidOCSPNonceExtension
    · simp [h, hne a (by simp) h]
    · rcases hex with ⟨e, he, hid⟩
      rcases List.mem_cons.mp he with rfl | hrest
      · exact absurd hid h
      · simp only [h, if_false]
        exact ih ⟨e, hrest, hid⟩ fun e2 he2 hid2 => hne e2 (List.mem_cons_of_mem a he2) hid2

theorem ocspNonceCheck_first_decides (pre : List pkixExtension)
    (ext : pkixExtension) (rest : List pkixExtension) (nonce : List Nat)
    (hpre : ∀ e ∈ pre, e.Id ≠ oidOCSPNonceExtension)
    (hid : ext.Id = oidOCSPNonceExtension) (hv : ext.Value ≠ nonce) :
    ocspNonceCheck (pre ++ ext :: rest) nonce = some .nonceMismatch := by
  induction pre with
  | nil => simp [ocspNonceCheck, hid, hv]
  | cons a p ih =>
    simp only [List.cons_append, ocspNonceCheck, hpre a (by simp), if_false]
    exact ih fun e he => hpre e (List.mem_cons_of_mem a he)

/-- C1 counterexample: a response whose decoded basic response carries TWO
status entries matching the request's CertID encoding is accepted by
`ocspResponseValidate` (it returns no error), refuting the claim that a
response with more than one matching entry is rejected. -/
theorem claim_C1_counterexample :
    ocspResponseValidate fixDecode (fixResponse [6]) fixRequest [] = none ∧
    fixDecode (fixResponse [6]).ResponseBytes.Response
      = some (fixBasic [fixEntry fixCertID, fixEntry fixCertID] []) ∧
    fixRequest.TBSRequest.RequestList.head? = some fixSingleRequest ∧
    (((fixBasic [fixEntry fixCertID, fixEntry fixCertID] []).TBSResponseData.Responses.filter
      fun r => r.CertID.Raw = fixSingleRequest.ReqCert.Raw).length = 2) := by
  refine ⟨by decide, by decide, by decide, by decide⟩

/-- C1 (amended): `ocspResponseValidate` returns no error only if the
decoded basic response contains AT LEAST ONE status entry whose encoded
CertID equals the encoded CertID of the request's first CertID, and a
response with zero matching entries is rejected with the
content-validation error `noStatusInfo` (once the status, response-type
and non-empty-body checks pass).  Responses with more than one matching
entry are not rejected (see the counterexample). -/
theorem claim_C1_theorem
    (decodeBasic : List Nat → Option ocspBasicResponse)
    (response : ocspResponse) (request : ocspRequest) (nonce : List Nat)
    (basicResponse : ocspBasicResponse) (sr : ocspSingleRequest)
    (hdec : decodeBasic response.ResponseBytes.Response = some basicResponse)
    (hrl : request.TBSRequest.RequestList.head? = some sr) :
    (ocspResponseValidate decodeBasic response request nonce = none →
      ∃ r ∈ basicResponse.TBSResponseData.Responses, r.CertID.Raw = sr.ReqCert.Raw) ∧
    ((∀ r ∈ basicResponse.TBSResponseData.Responses, r.CertID.Raw ≠ sr.ReqCert.Raw) →
      response.ResponseStatus = 0 →
      response.ResponseBytes.ResponseType = oidOCSPBasicResponse →
      response.ResponseBytes.Response.length ≠ 0 →
      ocspResponseValidate decodeBasic response request nonce
        = some .noStatusInfo) := by
  constructor
  · intro hnone
    by_contra hno
    push_neg at hno
    have hfind := (ocspFindStatusInfo_false_iff hrl
      basicResponse.TBSResponseData.Responses).mpr fun r hr => hno r hr
    simp only [ocspResponseValidate, hdec, hfind] at hnone
    split_ifs at hnone
  · intro hno hstatus htype hbody
    have hfind := (ocspFindStatusInfo_false_iff hrl
      basicResponse.TBSResponseData.Responses).mpr hno
    simp only [ocspResponseValidate, hstatus, htype, hdec, hfind]
    simp [hbody]

/-- C1 witness: a concrete response with zero matching entries is rejected
with `noStatusInfo`, via `claim_C1_theorem`. -/
theorem claim_C1_witness :
    fixDecode (fixResponse [8]).ResponseBytes.Response
      = some (fixBasic [fixEntry fixOtherCertID] [fixNonceExt fixNonce]) ∧
    ocspResponseValidate fixDecode (fixResponse [8]) fixRequest []
      = some .noStatusInfo :=
  ⟨by decide, by
    have h := claim_C1_theorem fixDecode (fixResponse [8]) fixRequest []
      (fixBasic [fixEntry fixOtherCertID] [fixNonceExt fixNonce]) fixSingleRequest
      (by decide) (by decide)
    exact h.2 (by decide) (by decide) (by decide) (by decide)⟩

/-- C10: when the signed response data carries two or more extensions with
the nonce OID, `ocspResponseValidate` compares the sent nonce only against
the first such extension in order: if the first one's value differs from
the sent nonce the result is the nonce-mismatch error, even when a later
extension with the same OID carries the byte-identical value. -/
theorem claim_C10_theorem
    (decodeBasic : List Nat → Option ocspBasicResponse)
    (response : ocspResponse) (request : ocspRequest) (nonce : List Nat)
    (basicResponse : ocspBasicResponse) (sr : ocspSingleRequest)
    (pre rest : List pkixExtension) (ext later : pkixExtension)
    (hstatus : response.ResponseStatus = 0)
    (htype : response.ResponseBytes.ResponseType = oidOCSPBasicResponse)
    (hbody : response.ResponseBytes.Response.length ≠ 0)
    (hdec : decodeBasic response.ResponseBytes.Response = some basicResponse)
    (hrl : request.TBSRequest.RequestList.head? = some sr)
    (hmatch : ∃ r ∈ basicResponse.TBSResponseData.Responses,
      r.CertID.Raw = sr.ReqCert.Raw)
    (hnonce : 0 < nonce.length)
    (hexts : basicResponse.TBSResponseData.Extensions = pre ++ ext :: rest)
    (hpre : ∀ e ∈ pre, e.Id ≠ oidOCSPNonceExtension)
    (hid : ext.Id = oidOCSPNonceExtension)
    (hv : ext.Value ≠ nonce)
    (_hlater : later ∈ rest ∧ later.Id = oidOCSPNonceExtension ∧ later.Value = nonce) :
    ocspResponseValidate decodeBasic response request nonce
      = some .nonceMismatch := by
  have hfind := (ocspFindStatusInfo_true_iff hrl
    basicResponse.TBSResponseData.Responses).mpr hmatch
  simp only [ocspResponseValidate, hstatus, htype, hdec, hfind, hexts]
  simp [hbody, hnonce, ocspNonceCheck_first_decides pre ext rest nonce hpre hid hv]

/-- C10 witness: a concrete response whose first nonce-OID extension
mismatches while the second carries the identical value is rejected with
the nonce-mismatch error, via `claim_C10_theorem`. -/
theorem claim_C10_witness :
    fixDecode (fixResponse [5]).ResponseBytes.Response
      = some (fixBasic [fixEntry fixCertID] [fixNonceExt [4, 2, 55, 67], fixNonceExt fixNonce]) ∧
    (fixBasic [fixEntry fixCertID]
      [fixNonceExt [4, 2, 55, 67], fixNonceExt fixNonce]).TBSResponseData.Extensions
      = [] ++ fixNonceExt [4, 2, 55, 67] :: [fixNonceExt fixNonce] ∧
    ocspResponseValidate fixDecode (fixResponse [5]) fixRequest fixNonce
      = some .nonceMismatch :=
  ⟨by decide, by decide,
    claim_C10_theorem fixDecode (fixResponse [5]) fixRequest fixNonce
      (fixBasic [fixEntry fixCertID] [fixNonceExt [4, 2, 55, 67], fixNonceExt fixNonce])
      fixSingleRequest [] [fixNonceExt fixNonce] (fixNonceExt [4, 2, 55, 67])
      (fixNonceExt fixNonce) (by decide) (by decide) (by decide) (by decide) (by decide)
      (by decide) (by decide) (by decide) (by decide) (by decide) (by decide) (by decide)⟩

/-- C2: a response with status 0, the basic-response type OID, a non-empty
body that decodes, a status entry whose encoded CertID equals the
request's, and nonce-OID extensions all carrying the sent nonce (one being
present) passes `ocspResponseValidate`; flipping exactly one of the
response status, the response type OID, the CertID bytes or the nonce
value produces four pairwise distinct typed errors identifying the failed
rule, with no panic. -/
theorem claim_C2_theorem
    (decodeBasic : List Nat → Option ocspBasicResponse)
    (request : ocspRequest) (sr : ocspSingleRequest)
    (body bodyCert bodyNonce nonce : List Nat)
    (basicResponse basicCert basicNonce : ocspBasicResponse)
    (s2 : Int) (t2 : List Nat)
    (hrl : request.TBSRequest.RequestList.head? = some sr)
    (hnonceSent : 0 < nonce.length)
    (hbody : body.length ≠ 0)
    (hdec : decodeBasic body = some basicResponse)
    (hmatch : ∃ r ∈ basicResponse.TBSResponseData.Responses,
      r.CertID.Raw = sr.ReqCert.Raw)
    (hnonceEx : ∃ e ∈ basicResponse.TBSResponseData.Extensions,
      e.Id = oidOCSPNonceExtension)
    (hnonceAll : ∀ e ∈ basicResponse.TBSResponseData.Extensions,
      e.Id = oidOCSPNonceExtension → e.Value = nonce)
    (hbodyCert : bodyCert.length ≠ 0)
    (hdecCert : decodeBasic bodyCert = some basicCert)
    (hflipCert : ∀ r ∈ basicCert.TBSResponseData.Responses,
      r.CertID.Raw ≠ sr.ReqCert.Raw)
    (hbodyNonce : bodyNonce.length ≠ 0)
    (hdecNonce : decodeBasic bodyNonce = some basicNonce)
    (hmatchNonce : ∃ r ∈ basicNonce.TBSResponseData.Responses,
      r.CertID.Raw = sr.ReqCert.Raw)
    (hflipNonceEx : ∃ e ∈ basicNonce.TBSResponseData.Extensions,
      e.Id = oidOCSPNonceExtension)
    (hflipNonceAll : ∀ e ∈ basicNonce.TBSResponseData.Extensions,
      e.Id = oidOCSPNonceExtension → e.Value ≠ nonce)
    (hs2 : s2 ≠ 0) (ht2 : t2 ≠ oidOCSPBasicResponse) :
    ocspResponseValidate decodeBasic ⟨0, ⟨oidOCSPBasicResponse, body⟩⟩ request nonce
      = none ∧
    ocspResponseValidate decodeBasic ⟨s2, ⟨oidOCSPBasicResponse, body⟩⟩ request nonce
      = some (.invalidResponseStatus s2) ∧
    ocspResponseValidate decodeBasic ⟨0, ⟨t2, body⟩⟩ request nonce
      = some (.invalidResponseType t2) ∧
    ocspResponseValidate decodeBasic ⟨0, ⟨oidOCSPBasicResponse, bodyCert⟩⟩ request nonce
      = some .noStatusInfo ∧
    ocspResponseValidate decodeBasic ⟨0, ⟨oidOCSPBasicResponse, bodyNonce⟩⟩ request nonce
      = some .nonceMismatch ∧
    (OcspValidateError.invalidResponseStatus s2 ≠ .invalidResponseType t2 ∧
      OcspValidateError.invalidResponseStatus s2 ≠ .noStatusInfo ∧
      OcspValidateError.invalidResponseStatus s2 ≠ .nonceMismatch ∧
      OcspValidateError.invalidResponseType t2 ≠ .noStatusInfo ∧
      OcspValidateError.invalidResponseType t2 ≠ .nonceMismatch ∧
      OcspValidateError.noStatusInfo ≠ .nonceMismatch) := by
  have hfind := (ocspFindStatusInfo_true_iff hrl
    basicResponse.TBSResponseData.Responses).mpr hmatch
  have hfindCert := (ocspFindStatusInfo_false_iff hrl
    basicCert.TBSResponseData.Responses).mpr hflipCert
  have hfindNonce := (ocspFindStatusInfo_true_iff hrl
    basicNonce.TBSResponseData.Responses).mpr hmatchNonce
  refine ⟨?_, ?_, ?_, ?_, ?_, by simp, by simp, by simp, by simp, by simp, by simp⟩
  · simp only [ocspResponseValidate, hdec, hfind]
    simp [hbody, hnonceSent,
      ocspNonceCheck_none_of_match _ nonce hnonceEx hnonceAll]
  · simp [ocspResponseValidate, hs2]
  · simp [ocspResponseValidate, ht2]
  · simp only [ocspResponseValidate, hdecCert, hfindCert]
    simp [hbodyCert]
  · simp only [ocspResponseValidate, hdecNonce, hfindNonce]
    simp [hbodyNonce, hnonceSent,
      ocspNonceCheck_mismatch_of_all_ne _ nonce hflipNonceEx hflipNonceAll]

/-- C2 witness: the concrete valid fixture passes and its three
response-side flips produce the distinct errors, via `claim_C2_theorem`. -/
theorem claim_C2_witness :
    fixDecode [9] = some (fixBasic [fixEntry fixCertID] [fixNonceExt fixNonce]) ∧
    ocspResponseValidate fixDecode (fixResponse [9]) fixRequest fixNonce = none ∧
    ocspResponseValidate fixDecode ⟨3, ⟨oidOCSPBasicResponse, [9]⟩⟩ fixRequest fixNonce
      = some (.invalidResponseStatus 3) ∧
    ocspResponseValidate fixDecode ⟨0, ⟨[1, 2, 3], [9]⟩⟩ fixRequest fixNonce
      = some (.invalidResponseType [1, 2, 3]) ∧
    ocspResponseValidate fixDecode (fixResponse [8]) fixRequest fixNonce
      = some .noStatusInfo ∧
    ocspResponseValidate fixDecode (fixResponse [7]) fixRequest fixNonce
      = some .nonceMismatch := by
  have h := claim_C2_theorem fixDecode fixRequest fixSingleRequest
    [9] [8] [7] fixNonce
    (fixBasic [fixEntry fixCertID] [fixNonceExt fixNonce])
    (fixBasic [fixEntry fixOtherCertID] [fixNonceExt fixNonce])
    (fixBasic [fixEntry fixCertID] [fixNonceExt [4, 2, 55, 67]])
    3 [1, 2, 3]
    (by decide) (by decide) (by decide) (by decide) (by decide) (by decide)
    (by decide) (by decide) (by decide) (by decide) (by decide) (by decide)
    (by decide) (by decide) (by decide) (by decide) (by decide)
  exact ⟨by decide, h.1, h.2.1, h.2.2.1, h.2.2.2.1, h.2.2.2.2.1⟩

theorem ocspCacheCertIDRaw_preserves_extensions
    (marshalCertID : ocspCertID → Option (List Nat)) (r1 r2 : ocspRequest)
    (h : ocspCacheCertIDRaw marshalCertID r1 = some r2) :
    r2.TBSRequest.RequestExtensions = r1.TBSRequest.RequestExtensions := by
  unfold ocspCacheCertIDRaw at h
  repeat' split at h
  any_goals exact Option.noConfusion h
  all_goals injection h with h
  all_goals subst h
  all_goals rfl

/-- C3: when a positive nonce size is configured and random-byte generation
succeeds with bytes `rb`, any successful `ocspEncodeRequest` run installs
in the request's nonce extension, and returns, exactly the DER OCTET
STRING encoding of `rb`, and ASN.1-decoding that returned value yields the
original `n` random bytes again. -/
theorem claim_C3_theorem
    (marshalCertID : ocspCertID → Option (List Nat))
    (marshalRequest : ocspRequest → Option (List Nat))
    (rb : List Nat) (request : ocspRequest) (n : Nat)
    (enc nonce : List Nat) (request2 : ocspRequest)
    (hn : 0 < n) (hlen : rb.length = n)
    (h : ocspEncodeRequest marshalCertID marshalRequest (some rb) request n
      = some (enc, nonce, request2)) :
    nonce = asn1MarshalOctetString rb ∧
    request2.TBSRequest.RequestExtensions
      = [{ Id := oidOCSPNonceExtension, Critical := false, Value := nonce }] ∧
    asn1UnmarshalOctetString nonce = some rb ∧
    rb.length = n := by
  simp only [ocspEncodeRequest, hn, if_pos] at h
  split at h
  · exact Option.noConfusion h
  · rename_i r2 heq
    split at h
    · exact Option.noConfusion h
    · simp only [Option.some.injEq, Prod.mk.injEq] at h
      obtain ⟨h1, h2, h3⟩ := h
      subst h2
      subst h3
      have hext := ocspCacheCertIDRaw_preserves_extensions marshalCertID _ _ heq
      refine ⟨rfl, ?_, asn1UnmarshalOctetString_marshal rb, hlen⟩
      rw [hext]

/-- C3 witness: a concrete run of `ocspEncodeRequest` with one random byte
`171` returns the nonce `[4, 1, 171]` (DER OCTET STRING of `[171]`),
installs it in the nonce extension and decodes back to `[171]`, via
`claim_C3_theorem`. -/
theorem claim_C3_witness :
    ocspEncodeRequest (fun _ => some [77]) (fun _ => some [99]) (some [171]) fixRequest 1
      = some ([99], [4, 1, 171],
        { fixRequest with TBSRequest := { fixTBSRequest with
            RequestExtensions :=
              [{ Id := oidOCSPNonceExtension, Critical := false, Value := [4, 1, 171] }] } }) ∧
    ([4, 1, 171] = asn1MarshalOctetString [171] ∧
      ({ fixRequest with TBSRequest := { fixTBSRequest with
          RequestExtensions :=
            [{ Id := oidOCSPNonceExtension, Critical := false,
               Value := [4, 1, 171] }] } } : ocspRequest).TBSRequest.RequestExtensions
        = [{ Id := oidOCSPNonceExtension, Critical := false, Value := [4, 1, 171] }] ∧
      asn1UnmarshalOctetString [4, 1, 171] = some [171] ∧
      ([171] : List Nat).length = 1) :=
  ⟨by decide,
    claim_C3_theorem (fun _ => some [77]) (fun _ => some [99]) [171] fixRequest 1
      [99] [4, 1, 171]
      { fixRequest with TBSRequest := { fixTBSRequest with
          RequestExtensions :=
            [{ Id := oidOCSPNonceExtension, Critical := false, Value := [4, 1, 171] }] } }
      (by decide) (by decide) (by decide)⟩

/-- C9: firing the cancellation signal at instant `t` during a retry wait
makes `waitForTimeout` return at `t`, strictly before the full interval
elapses; an already-cancelled context, or a zero interval, returns without
waiting at all. -/
theorem claim_C9_theorem (timeout t : Nat) (c : Option Nat) (b : Bool)
    (h : t < timeout) :
    waitForTimeout false timeout (some t) = t ∧
    waitForTimeout false timeout (some t) < timeout ∧
    waitForTimeout true timeout c = 0 ∧
    waitForTimeout b 0 c = 0 := by
  have h0 : ¬ (timeout = 0) := by omega
  refine ⟨?_, ?_, by simp [waitForTimeout], by simp [waitForTimeout]⟩
  · simp [waitForTimeout, h0, Nat.min_eq_right h.le]
  · simp [waitForTimeout, h0, Nat.min_eq_right h.le, h]

/-- C9 witness: cancellation firing at instant 3 of a 10-unit wait returns
after 3 units, via `claim_C9_theorem`. -/
theorem claim_C9_witness :
    (3 : Nat) < 10 ∧
    (waitForTimeout false 10 (some 3) = 3 ∧
      waitForTimeout false 10 (some 3) < 10 ∧
      waitForTimeout true 10 none = 0 ∧
      waitForTimeout false 0 none = 0) :=
  ⟨by decide, claim_C9_theorem 10 3 none false (by decide)⟩

/-- C7 counterexample: with `maxResponseBytes = 1`, a clean response body
of exactly 1 byte — which does NOT exceed the limit — is reported as a
transport error by the body-reading logic of `postRequest`, refuting the
claim that any body of at most `m` bytes is returned without error. -/
theorem claim_C7_counterexample :
    ([0] : List Nat).length ≤ 1 ∧
    (postRequestReadBody 1 [0]).2 = some "maximum response body size exceeded" := by
  refine ⟨by decide, by decide⟩

/-- C7 (amended): with `maxResponseBytes = 0` the whole body is read with
no size limit and no size error; for `m > 0` the body-reading step of
`postRequest` returns the size-limit transport error exactly when the body
has AT LEAST `m` bytes (the limited reader cannot distinguish a body of
exactly `m` bytes from a longer one), and returns the full body without
error whenever the body has FEWER than `m` bytes. -/
theorem claim_C7_theorem (m : Int) (body : List Nat) (hm : 0 < m) :
    postRequestReadBody 0 body = (body, none) ∧
    ((postRequestReadBody m body).2 ≠ none ↔ m.toNat ≤ body.length) ∧
    (body.length < m.toNat → postRequestReadBody m body = (body, none)) := by
  refine ⟨by simp [postRequestReadBody], ?_, ?_⟩
  · simp only [postRequestReadBody, hm, if_pos, List.length_take]
    by_cases h : m.toNat ≤ body.length
    · simp [Nat.min_eq_left h, h]
    · push_neg at h
      have : ¬ (min m.toNat body.length = m.toNat) := by omega
      simp [this]
      omega
  · intro hlt
    have htake : body.take m.toNat = body := List.take_of_length_le (by omega)
    have : ¬ ((body.take m.toNat).length = m.toNat) := by
      rw [htake]; omega
    simp [postRequestReadBody, hm, this, htake]
    omega

/-- C7 witness: with limit 2 a 1-byte body passes through unchanged with
no error, and the error appears exactly when the body reaches 2 bytes, via
`claim_C7_theorem`. -/
theorem claim_C7_witness :
    (0 : Int) < 2 ∧
    (postRequestReadBody 0 [5] = ([5], none) ∧
      ((postRequestReadBody 2 [5]).2 ≠ none ↔ (2 : Int).toNat ≤ ([5] : List Nat).length) ∧
      (([5] : List Nat).length < (2 : Int).toNat → postRequestReadBody 2 [5] = ([5], none))) :=
  ⟨by decide, claim_C7_theorem 2 [5] (by decide)⟩

/-- C8 counterexample: a TSP monitor failure and an HTTP monitor failure
are assigned the SAME exit code 8 by the orchestrator, refuting the claim
that each failing subsystem maps to a distinct exit code. -/
theorem claim_C8_counterexample :
    mainHandleEvent 0 (.tspResult (some .encodeError))
      = mainHandleEvent 0 (.httpResult (some .encodeError)) ∧
    mainHandleEvent 0 (.tspResult (some .encodeError)) = 8 := by
  refine ⟨by decide, by decide⟩

/-- C8 (amended): a non-nil terminal monitor error or a metrics-server
failure stops the orchestrator with a nonzero per-subsystem exit code — 7
for OCSP, 8 for TSP, 8 again for HTTP (TSP and HTTP share a code, so the
codes are not all distinct) and 9 for the metrics server — while an
operator interrupt yields exit code 0 and a monitor finishing without
error leaves the exit code unchanged and does not stop the loop. -/
theorem claim_C8_theorem (e : MonitorError) (cur : Nat) :
    mainHandleEvent cur (.ocspResult (some e)) = 7 ∧
    mainHandleEvent cur (.tspResult (some e)) = 8 ∧
    mainHandleEvent cur (.httpResult (some e)) = 8 ∧
    mainHandleEvent cur .metricsResult = 9 ∧
    mainHandleEvent cur .osSignal = 0 ∧
    mainHandleEvent cur (.ocspResult none) = cur ∧
    mainHandleEvent cur (.tspResult none) = cur ∧
    mainHandleEvent cur (.httpResult none) = cur ∧
    mainStopsAfter (.ocspResult (some e)) = true ∧
    mainStopsAfter (.tspResult (some e)) = true ∧
    mainStopsAfter (.httpResult (some e)) = true ∧
    mainStopsAfter .metricsResult = true ∧
    mainStopsAfter .osSignal = true ∧
    mainStopsAfter (.ocspResult none) = false := by
  simp [mainHandleEvent, mainStopsAfter]

theorem monitorWaitEvents_no_logStop (env : MonitorEnv) (i : Nat) :
    MonitorEvent.logStop ∉ monitorWaitEvents env i := by
  unfold monitorWaitEvents
  split <;> simp

theorem ocspMonitorStep_no_logStop (env : MonitorEnv) (i : Nat) :
    MonitorEvent.logStop ∉ (ocspMonitorStep env i).1 := by
  have hw := monitorWaitEvents_no_logStop env i
  unfold ocspMonitorStep
  cases env.attempt i
  case netFail ctxMatch => cases ctxMatch <;> simp_all
  all_goals simp_all

theorem ocspMonitorStep_brk_some (env : MonitorEnv) (i : Nat)
    (evs : List MonitorEvent) (e : MonitorError)
    (h : ocspMonitorStep env i = (evs, .brk (some e))) :
    (e = .encodeError → env.attempt i = .encodeFail) ∧
    (e = .createRequestError → env.attempt i = .createFail) := by
  cases henv : env.attempt i <;> simp only [ocspMonitorStep, henv] at h
  case encodeFail =>
    have h2 := congrArg Prod.snd h
    simp only [StepOutcome.brk.injEq, Option.some.injEq] at h2
    subst h2
    exact ⟨fun _ => rfl, fun hc => MonitorError.noConfusion hc⟩
  case createFail =>
    have h2 := congrArg Prod.snd h
    simp only [StepOutcome.brk.injEq, Option.some.injEq] at h2
    subst h2
    exact ⟨fun hc => MonitorError.noConfusion hc, fun _ => rfl⟩
  case netFail => split at h <;> simp at h
  all_goals simp at h

/-- Invariant of the monitor main loop: the loop itself never emits the
stop log event, and a terminal error can only originate in an attempt
whose request build failed (encode) or whose HTTP request object could not
be constructed. -/
theorem ocspMonitorLoop_inv (env : MonitorEnv) :
    ∀ (fuel i : Nat) (evs : List MonitorEvent) (err : Option MonitorError),
      ocspMonitorLoop env i fuel = some (evs, err) →
      MonitorEvent.logStop ∉ evs ∧
      (err = some .encodeError → ∃ j, env.attempt j = .encodeFail) ∧
      (err = some .createRequestError → ∃ j, env.attempt j = .createFail) := by
  intro fuel
  induction fuel with
  | zero =>
    intro i evs err h
    exact absurd h (by simp [ocspMonitorLoop])
  | succ fuel ih =>
    intro i evs err h
    rw [ocspMonitorLoop] at h
    split at h
    · split at h
      · simp only [Option.some.injEq, Prod.mk.injEq] at h
        obtain ⟨rfl, rfl⟩ := h
        simp
      · split at h
        · rename_i evs1 e heq
          simp only [Option.some.injEq, Prod.mk.injEq] at h
          obtain ⟨rfl, rfl⟩ := h
          have hstep : MonitorEvent.logStop ∉ evs1 := by
            have hs := ocspMonitorStep_no_logStop env i
            rw [heq] at hs
            exact hs
          refine ⟨hstep, ?_, ?_⟩
          · rintro rfl
            exact ⟨i, (ocspMonitorStep_brk_some env i evs1 _ heq).1 rfl⟩
          · rintro rfl
            exact ⟨i, (ocspMonitorStep_brk_some env i evs1 _ heq).2 rfl⟩
        · rename_i evs1 heq
          split at h
          · exact Option.noConfusion h
          · rename_i evs2 e2 heq2
            simp only [Option.some.injEq, Prod.mk.injEq] at h
            obtain ⟨rfl, rfl⟩ := h
            obtain ⟨ih1, ih2, ih3⟩ := ih (i + 1) evs2 e2 heq2
            have hstep : MonitorEvent.logStop ∉ evs1 := by
              have hs := ocspMonitorStep_no_logStop env i
              rw [heq] at hs
              exact hs
            refine ⟨?_, ih2, ih3⟩
            intro hmem
            rcases List.mem_append.mp hmem with h1 | h2
            · exact hstep h1
            · exact ih1 h2
    · simp only [Option.some.injEq, Prod.mk.injEq] at h
      obtain ⟨rfl, rfl⟩ := h
      simp

/-- Characterization of a terminated monitor run: the events are the loop
events followed by the single stop log event, the non-blocking send of the
terminal error into the fresh capacity-1 channel always succeeds, and the
channel ends closed holding exactly the terminal error (if any). -/
theorem ocspMonitorRun_eq (env : MonitorEnv) (fuel : Nat) (run : MonitorRun)
    (h : ocspMonitorRun env fuel = some run) :
    ∃ evs, ocspMonitorLoop env 0 fuel = some (evs, run.lastError) ∧
      run.events = evs ++ [.logStop] ∧
      run.channel = { buf := run.lastError.toList, closed := true } ∧
      run.sendDelivered = true := by
  unfold ocspMonitorRun at h
  split at h
  · exact Option.noConfusion h
  · rename_i evs err heq
    cases err with
    | none =>
      simp only [monitorEpilogue] at h
      injection h with h
      subst h
      exact ⟨evs, heq, rfl, rfl, rfl⟩
    | some e =>
      simp only [monitorEpilogue, channelTrySend, newResultChannel] at h
      injection h with h
      subst h
      exact ⟨evs, heq, rfl, rfl, rfl⟩

/-- C5 counterexample: an environment in which the HTTP request object can
never be constructed terminates on the first attempt with the terminal
error `createRequestError`, delivered on the result channel — an error
that is not the request-build (encode) failure, refuting the claim that a
build failure is the only failure class producing a terminal error. -/
theorem claim_C5_counterexample :
    ocspMonitorRun envCreateFail 5
      = some { events := [.attempt 0, .logStop],
               lastError := some .createRequestError,
               channel := { buf := [.createRequestError], closed := true },
               sendDelivered := true } ∧
    (∀ i : Nat, envCreateFail.attempt i ≠ .encodeFail) ∧
    MonitorError.createRequestError ≠ .encodeError := by
  refine ⟨by decide, fun i => by simp [envCreateFail], by decide⟩

/-- C5 (amended): in every terminated monitor run the terminal error, when
present, is either the fatal request-build (encode) failure or the failure
to construct the HTTP request object, each traceable to an attempt of that
class; when no attempt fails in either of these two ways the monitor
terminates without a terminal error, so network, HTTP-status, decode and
content-validation failures are all handled locally, and the result
channel carries exactly the terminal error and nothing else. -/
theorem claim_C5_theorem (env : MonitorEnv) (fuel : Nat) (run : MonitorRun)
    (h : ocspMonitorRun env fuel = some run) :
    (run.lastError = some .encodeError → ∃ i, env.attempt i = .encodeFail) ∧
    (run.lastError = some .createRequestError → ∃ i, env.attempt i = .createFail) ∧
    ((∀ i, env.attempt i ≠ .encodeFail ∧ env.attempt i ≠ .createFail) →
      run.lastError = none ∧ run.channel.buf = []) ∧
    run.channel.buf = run.lastError.toList := by
  obtain ⟨evs, heq, hev, hch, hsd⟩ := ocspMonitorRun_eq env fuel run h
  obtain ⟨-, h2, h3⟩ := ocspMonitorLoop_inv env fuel 0 evs run.lastError heq
  have hnone : (∀ i, env.attempt i ≠ .encodeFail ∧ env.attempt i ≠ .createFail) →
      run.lastError = none := by
    intro hno
    cases herr : run.lastError with
    | none => rfl
    | some e =>
      cases e with
      | encodeError =>
        obtain ⟨j, hj⟩ := h2 herr
        exact absurd hj (hno j).1
      | createRequestError =>
        obtain ⟨j, hj⟩ := h3 herr
        exact absurd hj (hno j).2
  refine ⟨h2, h3, ?_, by rw [hch]⟩
  intro hno
  refine ⟨hnone hno, ?_⟩
  rw [hch, hnone hno]
  rfl

/-- C5 witness: in a run where every attempt fails with a network error,
no terminal error appears and the channel closes empty, via
`claim_C5_theorem`. -/
theorem claim_C5_witness :
    ocspMonitorRun (envNetFail 1) 2
      = some { events := [.attempt 0, .observe, .incNet, .logStop],
               lastError := none,
               channel := { buf := [], closed := true },
               sendDelivered := true } ∧
    ({ events := [.attempt 0, .observe, .incNet, .logStop],
       lastError := none,
       channel := { buf := [], closed := true },
       sendDelivered := true } : MonitorRun).channel.buf
      = ({ events := [.attempt 0, .observe, .incNet, .logStop],
           lastError := none,
           channel := { buf := [], closed := true },
           sendDelivered := true } : MonitorRun).lastError.toList :=
  ⟨by decide,
    (claim_C5_theorem (envNetFail 1) 2
      { events := [.attempt 0, .observe, .incNet, .logStop],
        lastError := none,
        channel := { buf := [], closed := true },
        sendDelivered := true } (by decide)).2.2.2⟩

/-- C6: every terminated monitor run emits exactly one stop log event,
ends with the capacity-1 result channel closed, holds in it exactly the
non-nil terminal error sent by the non-blocking send before the close (and
nothing when there is none), and that send never fails for lack of buffer
space. -/
theorem claim_C6_theorem (env : MonitorEnv) (fuel : Nat) (run : MonitorRun)
    (h : ocspMonitorRun env fuel = some run) :
    countStops run.events = 1 ∧
    run.channel.closed = true ∧
    run.channel.buf = run.lastError.toList ∧
    run.sendDelivered = true := by
  obtain ⟨evs, heq, hev, hch, hsd⟩ := ocspMonitorRun_eq env fuel run h
  obtain ⟨hns, -, -⟩ := ocspMonitorLoop_inv env fuel 0 evs run.lastError heq
  have hnil : evs.filter (fun e => e = MonitorEvent.logStop) = [] := by
    rw [List.filter_eq_nil_iff]
    intro a ha
    simp only [decide_eq_true_eq]
    intro hae
    exact hns (hae ▸ ha)
  refine ⟨?_, by rw [hch], by rw [hch], hsd⟩
  rw [hev]
  unfold countStops
  rw [List.filter_append, hnil]
  rfl

/-- C6 witness: the concrete terminated run with a fatal request
construction failure emits one stop event, closes the channel and delivers
the error, via `claim_C6_theorem`. -/
theorem claim_C6_witness :
    ocspMonitorRun envCreateFail 4
      = some { events := [.attempt 0, .logStop],
               lastError := some .createRequestError,
               channel := { buf := [.createRequestError], closed := true },
               sendDelivered := true } ∧
    (countStops [MonitorEvent.attempt 0, MonitorEvent.logStop] = 1 ∧
      (({ buf := [.createRequestError], closed := true } : ResultChannel)).closed = true ∧
      (({ buf := [.createRequestError], closed := true } : ResultChannel)).buf
        = (some MonitorError.createRequestError).toList ∧
      true = true) :=
  ⟨by decide, claim_C6_theorem envCreateFail 4
    { events := [.attempt 0, .logStop],
      lastError := some .createRequestError,
      channel := { buf := [.createRequestError], closed := true },
      sendDelivered := true } (by decide)⟩

theorem countAttempts_append (a b : List MonitorEvent) :
    countAttempts (a ++ b) = countAttempts a + countAttempts b := by
  unfold countAttempts
  rw [List.filter_append, List.length_append]

theorem countWaits_append (a b : List MonitorEvent) :
    countWaits (a ++ b) = countWaits a + countWaits b := by
  unfold countWaits
  rw [List.filter_append, List.length_append]

theorem countAttempts_netFailTrace (env : MonitorEnv) (i : Nat) :
    countAttempts (netFailTrace env i) = 1 := by
  unfold countAttempts netFailTrace monitorWaitEvents
  split <;> rfl

theorem countWaits_netFailTrace (env : MonitorEnv) (i : Nat) :
    countWaits (netFailTrace env i)
      = if env.retryCount = 0 ∨ i ≠ env.retryCount - 1 then 1 else 0 := by
  unfold countWaits netFailTrace monitorWaitEvents
  split <;> simp_all

theorem countAttempts_flatMap_netFail (env : MonitorEnv) :
    ∀ (k i : Nat),
      countAttempts ((List.range' i k).flatMap (netFailTrace env)) = k := by
  intro k
  induction k with
  | zero => intro i; rfl
  | succ k ih =>
    intro i
    rw [List.range'_succ i k 1, List.flatMap_cons, countAttempts_append,
      countAttempts_netFailTrace, ih (i + 1)]
    omega

theorem countWaits_flatMap_netFail (N : Nat) :
    ∀ (k i : Nat), i + k = N → 0 < k →
      countWaits ((List.range' i k).flatMap (netFailTrace (envNetFail N))) = k - 1 := by
  intro k
  induction k with
  | zero => intro i h hk; omega
  | succ k ih =>
    intro i h hk
    rw [List.range'_succ i k 1, List.flatMap_cons, countWaits_append,
      countWaits_netFailTrace]
    rcases Nat.eq_zero_or_pos k with rfl | hkpos
    · have hcond : ¬ ((envNetFail N).retryCount = 0 ∨ i ≠ (envNetFail N).retryCount - 1) := by
        simp only [envNetFail]
        omega
      rw [if_neg hcond]
      simp [countWaits]
    · have hcond : (envNetFail N).retryCount = 0 ∨ i ≠ (envNetFail N).retryCount - 1 := by
        simp only [envNetFail]
        omega
      rw [if_pos hcond, ih (i + 1) (by omega) hkpos]
      omega

/-- The exact loop trace when every attempt fails with a non-cancellation
network error and cancellation never fires: the attempts from `i` to
`N - 1` each contribute their net-failure events, and the loop exits with
no terminal error. -/
theorem envNetFail_loop (N : Nat) (hN : 0 < N) :
    ∀ (fuel i : Nat), i < N → N - i < fuel →
      ocspMonitorLoop (envNetFail N) i fuel
        = some ((List.range' i (N - i)).flatMap (netFailTrace (envNetFail N)), none) := by
  intro fuel
  induction fuel with
  | zero => intro i h1 h2; omega
  | succ fuel ih =>
    intro i h1 h2
    rw [ocspMonitorLoop]
    have hcond : (envNetFail N).retryCount = 0 ∨ i < (envNetFail N).retryCount :=
      Or.inr h1
    rw [if_pos hcond]
    have hcanc : (envNetFail N).cancelledAt i = false := rfl
    rw [hcanc]
    have hstep : ocspMonitorStep (envNetFail N) i = (netFailTrace (envNetFail N) i, .cont) := rfl
    rw [hstep]
    by_cases hin : i + 1 < N
    · rw [ih (i + 1) hin (by omega)]
      have hrange : List.range' i (N - i) 1
          = i :: List.range' (i + 1) (N - (i + 1)) 1 := by
        have : N - i = (N - (i + 1)) + 1 := by omega
        rw [this, List.range'_succ i (N - (i + 1)) 1]
      rw [hrange, List.flatMap_cons]
      rfl
    · have hiN : i + 1 = N := by omega
      obtain ⟨fuel2, rfl⟩ : ∃ f, fuel = f + 1 := by
        refine ⟨fuel - 1, ?_⟩
        omega
      have hexit : ocspMonitorLoop (envNetFail N) (i + 1) (fuel2 + 1) = some ([], none) := by
        rw [ocspMonitorLoop]
        have hcond2 : ¬ ((envNetFail N).retryCount = 0 ∨ i + 1 < (envNetFail N).retryCount) := by
          simp only [envNetFail]
          omega
        rw [if_neg hcond2]
      rw [hexit]
      have hrange : List.range' i (N - i) 1 = [i] := by
        have : N - i = 1 := by omega
        rw [this]
        rfl
      rw [hrange]
      simp

/-- C4: with configured retry count `N > 0`, every attempt failing with a
non-cancellation network error and cancellation never firing, the monitor
performs exactly `N` attempts — each logged, observed and counted as a
`net` error — waits the retry interval after every attempt except the
`N`-th, and terminates with no terminal error and the result channel
closed empty. -/
theorem claim_C4_theorem (N fuel : Nat) (hN : 0 < N) (hfuel : N < fuel) :
    ocspMonitorRun (envNetFail N) fuel
      = some { events := (List.range N).flatMap (netFailTrace (envNetFail N)) ++ [.logStop],
               lastError := none,
               channel := { buf := [], closed := true },
               sendDelivered := true } ∧
    countAttempts ((List.range N).flatMap (netFailTrace (envNetFail N))) = N ∧
    countWaits ((List.range N).flatMap (netFailTrace (envNetFail N))) = N - 1 := by
  have hloop := envNetFail_loop N hN fuel 0 hN (by omega)
  simp only [Nat.sub_zero] at hloop
  refine ⟨?_, ?_, ?_⟩
  · unfold ocspMonitorRun
    rw [hloop]
    rw [List.range_eq_range' N]
    rfl
  · rw [List.range_eq_range' N]
    exact countAttempts_flatMap_netFail (envNetFail N) N 0
  · rw [List.range_eq_range' N]
    exact countWaits_flatMap_netFail N N 0 (by omega) hN

/-- C4 witness: with retry count 2 the monitor makes exactly 2 attempts,
waits once (after the first attempt only) and closes the channel empty,
via `claim_C4_theorem`. -/
theorem claim_C4_witness :
    (0 : Nat) < 2 ∧ (2 : Nat) < 4 ∧
    (ocspMonitorRun (envNetFail 2) 4
      = some { events := (List.range 2).flatMap (netFailTrace (envNetFail 2)) ++ [.logStop],
               lastError := none,
               channel := { buf := [], closed := true },
               sendDelivered := true } ∧
     countAttempts ((List.range 2).flatMap (netFailTrace (envNetFail 2))) = 2 ∧
     countWaits ((List.range 2).flatMap (netFailTrace (envNetFail 2))) = 1) :=
  ⟨by decide, by decide, claim_C4_theorem 2 4 (by decide) (by decide)⟩

end Ncatos
